import Mathlib

/-!
Verification of the hospital demo dataset generator
(`generate_large_datasets.py`).

The generator is a single deterministic batch pass.  Every random draw in
the source (`random.randint`, `random.random`, `random.choices`,
`np.random.poisson`, …) is modelled by an explicit parameter together with a
predicate describing the set of values the draw can produce; a property of
"every generated record" becomes a theorem quantified over all drawable
values, and a refutation exhibits one concrete drawable value.

Dates are modelled as integer day numbers counted from 2023-01-01 (the
generator only manipulates whole days; times of day are independent random
strings that no verified property mentions).  Sequence identifiers such as
`ADM000001`, `BED00001`, … are modelled by their integer counters.
-/

namespace HospitalDemo

/-! ### Calendar arithmetic

The source uses `datetime` values for 2023–2024 only; we convert the three
concrete dates it mentions (`datetime(2023, 1, 1)`, `datetime(2024, 12, 31)`,
`datetime(2024, 12, 15)`) to day numbers with explicit Gregorian month
lengths rather than hard-coding the offsets. -/

/-- Month lengths of a year, leap or not. -/
def monthLengths (leap : Bool) : List Nat :=
  [31, if leap then 29 else 28, 31, 30, 31, 30, 31, 31, 30, 31, 30, 31]

/-- 1-based ordinal of day `d` of month `m` within its year. -/
def dayOfYear (leap : Bool) (m d : Nat) : Nat :=
  ((monthLengths leap).take (m - 1)).sum + d

/-- Day number of a 2023/2024 calendar date, counted from 2023-01-01 = 0.
2023 has 365 days and 2024 is a leap year. -/
def epochDay (y m d : Nat) : ℤ :=
  (if y = 2024 then (365 : ℤ) else 0) + dayOfYear (y == 2024) m d - 1

/-- `start_date = datetime(2023, 1, 1)` in `generate_admissions_and_procedures`. -/
def start_date : ℤ := epochDay 2023 1 1

/-- `end_date = datetime(2024, 12, 31)`. -/
def end_date : ℤ := epochDay 2024 12 31

/-- `current_date = datetime(2024, 12, 15)  # Simulate current date`. -/
def current_date : ℤ := epochDay 2024 12 15

/-- `date_range = (end_date - start_date).days`. -/
def date_range : ℤ := end_date - start_date

/-! ### Admission generation (`generate_admissions_and_procedures`)

Length of stay is drawn from a type-specific continuous distribution,
truncated by `int(...)` (which can produce any integer, including 0 or a
negative value for the Normal draw), then clamped:
`los_days = max(1, int(sample)); los_days = min(los_days, 30)`. -/

/-- `los_days = min(max(1, int(sample)), 30)` for an arbitrary integer
truncation `draw` of the distribution sample. -/
def los_days (draw : ℤ) : ℤ := min (max 1 draw) 30

/-- Discharge-date logic: current admissions are discharged
(`admission_date + los`) only on a 30% roll and otherwise remain admitted
(`None`); historical admissions always get `admission_date + los`. -/
def discharge_date (admission_date los : ℤ)
    (is_current_admission discharged_roll : Bool) : Option ℤ :=
  if is_current_admission then
    if discharged_roll then some (admission_date + los) else none
  else
    some (admission_date + los)

/-- Upper bound of the procedure-date offset draw:
`random.randint(0, max(1, los_days - 1))`. -/
def procedure_offset_upper (los : ℤ) : ℤ := max 1 (los - 1)

/-- The offsets `random.randint(0, max(1, los_days - 1))` can return. -/
def procedure_offset_possible (los k : ℤ) : Prop :=
  0 ≤ k ∧ k ≤ procedure_offset_upper los

/-- `procedure_date = admission_date + timedelta(days=offset)`. -/
def procedure_date (admission_date k : ℤ) : ℤ := admission_date + k

/-- Size of the "currently admitted" cohort:
`min(int(len(active_patients) * CURRENT_ADMISSION_RATE), len(active_patients))`
with `CURRENT_ADMISSION_RATE = 0.05`.  Python `int` truncates towards zero,
i.e. takes the floor of the non-negative product; the binary double `0.05`
exceeds 1/20 by less than 3e-18, which never moves the floor for any
population size the generator can produce, so the product is modelled
exactly as `active_count * 5 / 100` in natural floor division. -/
def current_cohort_size (active_count : Nat) : Nat :=
  min (active_count * 5 / 100) active_count

/-- Offsets the historic-patient admission-date draw
`random.randint(0, date_range - 730)` can return. -/
def historic_offset_possible (k : ℤ) : Prop :=
  0 ≤ k ∧ k ≤ date_range - 730

/-- `admission_date = start_date + timedelta(days=offset)` for a Historic
patient. -/
def historic_admission_date (k : ℤ) : ℤ := start_date + k

/-! ### Reference catalogs

Only the columns that the verified properties read are embedded: the
department tuples carry nine fields, of which the generators use the code
(index 0) and the bed capacity (index 7); the medication tuples carry the
seven fields below in full. -/

structure Department where
  code : String
  bed_capacity : Nat
deriving DecidableEq

/-- The 21-entry `departments` table, projected to (code, bed_capacity). -/
def departments : List Department :=
  [⟨"CARD", 30⟩, ⟨"EMER", 15⟩, ⟨"ORTH", 25⟩, ⟨"OBGY", 20⟩, ⟨"NEUR", 20⟩,
   ⟨"GAST", 15⟩, ⟨"PEDI", 25⟩, ⟨"ONCO", 20⟩, ⟨"PSYC", 10⟩, ⟨"RADI", 0⟩,
   ⟨"PULM", 18⟩, ⟨"ENDO", 12⟩, ⟨"DERM", 8⟩, ⟨"UROL", 16⟩, ⟨"RHEU", 10⟩,
   ⟨"PHAR", 0⟩, ⟨"PHYS", 0⟩, ⟨"OCCU", 0⟩, ⟨"RESP", 0⟩, ⟨"NUTR", 0⟩,
   ⟨"SOCI", 0⟩]

structure Medication where
  code : String
  name : String
  medClass : String
  category : String
  form : String
  strength : String
  unit_cost_cents : Nat
deriving DecidableEq

/-- The 20-entry `medications` table
(code, name, class, therapeutic category, form, strength, unit cost).
Unit costs are exact two-decimal dollar amounts in the source
(e.g. 15.50); they are embedded in cents to stay within exact integer
arithmetic. -/
def medications : List Medication :=
  [⟨"MED001", "Lisinopril", "ACE Inhibitor", "Cardiovascular", "Tablet", "10mg", 1550⟩,
   ⟨"MED002", "Metformin", "Antidiabetic", "Endocrine", "Tablet", "500mg", 1225⟩,
   ⟨"MED003", "Atorvastatin", "Statin", "Cardiovascular", "Tablet", "20mg", 2875⟩,
   ⟨"MED004", "Omeprazole", "Proton Pump Inhibitor", "Gastrointestinal", "Capsule", "20mg", 2200⟩,
   ⟨"MED005", "Amlodipine", "Calcium Channel Blocker", "Cardiovascular", "Tablet", "5mg", 1850⟩,
   ⟨"MED006", "Simvastatin", "Statin", "Cardiovascular", "Tablet", "40mg", 2575⟩,
   ⟨"MED007", "Levothyroxine", "Thyroid Hormone", "Endocrine", "Tablet", "50mcg", 3525⟩,
   ⟨"MED008", "Azithromycin", "Antibiotic", "Anti-Infective", "Tablet", "250mg", 4500⟩,
   ⟨"MED009", "Prednisone", "Corticosteroid", "Anti-Inflammatory", "Tablet", "10mg", 2050⟩,
   ⟨"MED010", "Warfarin", "Anticoagulant", "Cardiovascular", "Tablet", "5mg", 3275⟩,
   ⟨"MED011", "Insulin Glargine", "Long-Acting Insulin", "Endocrine", "Injection", "100units/mL", 12500⟩,
   ⟨"MED012", "Morphine", "Opioid Analgesic", "Pain Management", "Injection", "10mg/mL", 8550⟩,
   ⟨"MED013", "Furosemide", "Loop Diuretic", "Cardiovascular", "Tablet", "40mg", 1625⟩,
   ⟨"MED014", "Hydrocodone", "Opioid Analgesic", "Pain Management", "Tablet", "5mg", 5575⟩,
   ⟨"MED015", "Sertraline", "SSRI Antidepressant", "Psychiatric", "Tablet", "50mg", 4200⟩,
   ⟨"MED016", "Gabapentin", "Anticonvulsant", "Neurological", "Capsule", "300mg", 3825⟩,
   ⟨"MED017", "Clopidogrel", "Antiplatelet", "Cardiovascular", "Tablet", "75mg", 6550⟩,
   ⟨"MED018", "Metoprolol", "Beta Blocker", "Cardiovascular", "Tablet", "50mg", 1975⟩,
   ⟨"MED019", "Pantoprazole", "Proton Pump Inhibitor", "Gastrointestinal", "Tablet", "40mg", 2800⟩,
   ⟨"MED020", "Tramadol", "Analgesic", "Pain Management", "Tablet", "50mg", 3350⟩]

/-! ### Medication generation (`generate_medication_data`) -/

/-- The values `random.randint(3, 8)` (both bounds inclusive) can return in
the pharmacy-inventory lot loop. -/
def lot_draw_possible (k : Nat) : Prop := 3 ≤ k ∧ k ≤ 8

instance (k : Nat) : Decidable (lot_draw_possible k) :=
  inferInstanceAs (Decidable (3 ≤ k ∧ k ≤ 8))

/-- Number of lots generated per catalog medication:
`for lot_num in range(1, random.randint(3, 8))` runs `k - 1` iterations for
draw `k`, one lot each. -/
def num_lots (k : Nat) : Nat := k - 1

/-- Department-specific therapeutic-class filter for order medication
selection (`med_options` in the source). -/
def med_options (dept_id : String) (catalog : List Medication) :
    List Medication :=
  if dept_id = "CARD" then
    catalog.filter (fun m => m.category == "Cardiovascular")
  else if dept_id = "NEUR" then
    catalog.filter
      (fun m => m.category == "Neurological" || m.category == "Pain Management")
  else if dept_id = "ENDO" then
    catalog.filter (fun m => m.category == "Endocrine")
  else if dept_id = "GAST" then
    catalog.filter (fun m => m.category == "Gastrointestinal")
  else
    catalog

/-- `selected_med = random.choice(med_options)`: a uniform index draw into
the candidate list; on an empty list `random.choice` raises `IndexError`,
modelled as `none`. -/
def selected_med (dept_id : String) (catalog : List Medication) (idx : Nat) :
    Option Medication :=
  (med_options dept_id catalog)[idx]?

/-- The Metformin catalog entry (therapeutic category Endocrine), used as a
concrete one-element catalog below. -/
def metformin : Medication :=
  ⟨"MED002", "Metformin", "Antidiabetic", "Endocrine", "Tablet", "500mg", 1225⟩

/-- `doses_to_dispense = min(quantity_ordered, duration_days * 4)`. -/
def doses_to_dispense (quantity_ordered duration_days : Nat) : Nat :=
  min quantity_ordered (duration_days * 4)

/-- Iterations of `for dose_num in range(1, min(doses_to_dispense + 1, 10))`. -/
def dispensing_loop_iterations (quantity_ordered duration_days : Nat) : Nat :=
  min (doses_to_dispense quantity_ordered duration_days + 1) 10 - 1

/-- Dispensing events appended for one order: one per loop iteration when
the inventory has lots matching the order's medication code, none
otherwise (the `if matching_inventory:` guard). -/
def dispensing_count (quantity_ordered duration_days : Nat)
    (has_matching_inventory : Bool) : Nat :=
  if has_matching_inventory then
    dispensing_loop_iterations quantity_ordered duration_days
  else 0

/-! ### Order and booking records -/

structure Admission where
  admission_id : Nat
  patient_id : Nat
  admission_date : ℤ
  discharge_date : Option ℤ
  department_id : String
  attending_physician : String
  total_charges : ℤ

structure MedicationOrder where
  order_id : Nat
  admission_id : Nat
  patient_id : Nat
  medication_code : String
  prescribing_physician : String
  order_date : ℤ
  quantity_ordered : Nat
  duration_days : Nat

/-- Order construction: the source sets
`order_date = datetime.strptime(admission['admission_date'], '%Y-%m-%d')`
and stores `order_date.strftime('%Y-%m-%d')` — a parse/format round trip of
the admission date, i.e. the admission date itself. -/
def mkMedicationOrder (order_id : Nat) (adm : Admission) (med : Medication)
    (quantity_ordered duration_days : Nat) : MedicationOrder :=
  { order_id := order_id
    admission_id := adm.admission_id
    patient_id := adm.patient_id
    medication_code := med.code
    prescribing_physician := adm.attending_physician
    order_date := adm.admission_date
    quantity_ordered := quantity_ordered
    duration_days := duration_days }

structure Bed where
  bed_id : Nat
  department_id : String
  room_number : String
  bed_number : String
  bed_type : String
  daily_rate : ℤ

structure BedBooking where
  booking_id : Nat
  bed_id : Nat
  patient_id : Nat
  check_in_day : ℤ
  expected_checkout_day : ℤ
  total_nights : ℤ
  nightly_rate : ℤ
  total_charges : ℤ

/-- Booking construction (`generate_bed_management_data`): the nightly rate
snapshots `bed['daily_rate']` and `total_charges` is computed as
`bed['daily_rate'] * nights` from the same snapshot source. -/
def mkBedBooking (booking_id : Nat) (bed : Bed) (patient_id : Nat)
    (check_in_day nights : ℤ) : BedBooking :=
  { booking_id := booking_id
    bed_id := bed.bed_id
    patient_id := patient_id
    check_in_day := check_in_day
    expected_checkout_day := check_in_day + nights
    total_nights := nights
    nightly_rate := bed.daily_rate
    total_charges := bed.daily_rate * nights }

/-! ### Theorems for claims C1–C4 -/

/-- Claim C2: every generated admission's `discharge_date` is either null or
at least `admission_date`, and when present, the length-of-stay gap
`discharge_date − admission_date` lies in [1, 30] — for every possible
truncated distribution draw, current/historical classification and
discharge roll. -/
theorem discharge_gap_in_bounds (draw ad : ℤ) (cur roll : Bool) (d : ℤ)
    (h : discharge_date ad (los_days draw) cur roll = some d) :
    ad ≤ d ∧ 1 ≤ d - ad ∧ d - ad ≤ 30 := by
  have h1 : 1 ≤ los_days draw :=
    le_min (le_max_left 1 draw) (by norm_num)
  have h2 : los_days draw ≤ 30 := min_le_right _ _
  unfold discharge_date at h
  cases cur <;> cases roll <;> simp only [Bool.false_eq_true, if_true, if_false,
    Option.some.injEq, reduceCtorEq] at h <;> omega

/-- Witness for `discharge_gap_in_bounds` at draw 2, admission day 0,
historical admission. -/
theorem discharge_gap_in_bounds_witness :
    discharge_date 0 (los_days 2) false false = some 2 ∧
      ((0 : ℤ) ≤ 2 ∧ 1 ≤ (2 : ℤ) - 0 ∧ (2 : ℤ) - 0 ≤ 30) :=
  ⟨by decide, discharge_gap_in_bounds 2 0 false false 2 (by decide)⟩

/-- Claim C1 (code bug): for an admission with LOS = 1 the offset draw
`random.randint(0, max(1, los_days - 1))` ranges over {0, 1}, so offset 1 is
drawable and dates the procedure one day after `admission_date`, strictly
outside the claimed window [`admission_date`, `admission_date` + LOS − 1],
which is the single admission day. -/
theorem procedure_date_outside_los1_window :
    procedure_offset_possible (los_days 1) 1 ∧
      procedure_date 0 1 = 1 ∧ 0 + (los_days 1 - 1) < procedure_date 0 1 := by
  refine ⟨⟨by decide, by decide⟩, by decide, by decide⟩

/-- Claim C3 (counterexample): with 13 Active patients the generator's
cohort has size `int(13 * 0.05) = 0`, while `round(0.05 × 13) = round(0.65)
= 1` under any round-to-nearest convention — the code truncates, it does not
round. -/
theorem current_cohort_size_not_round :
    current_cohort_size 13 = 0 ∧ round ((13 : ℚ) * (5 / 100)) = 1 := by
  constructor
  · rfl
  · norm_num [round_eq]

/-- Claim C3 (amended): the "currently admitted" cohort size equals
⌊0.05 × active_count⌋ = ⌊active_count / 20⌋ (truncation, capped at the
active population, with the cap never binding). -/
theorem current_cohort_size_eq_floor (a : Nat) :
    current_cohort_size a = a / 20 := by
  unfold current_cohort_size
  omega

/-- Claim C4 (code bug): the historic-patient admission-date draw
`random.randint(0, date_range - 730)` has upper bound 0, so the only
drawable offset is 0 and every Historic admission is dated exactly
`start_date` = 2023-01-01 — which lies only 714 days (less than 730, i.e.
less than 2 years) before the simulated current date 2024-12-15. -/
theorem historic_admission_fixed_and_recent :
    historic_offset_possible 0 ∧ date_range - 730 = 0 ∧
      historic_admission_date 0 = start_date ∧
      current_date - historic_admission_date 0 = 714 ∧
      current_date - historic_admission_date 0 < 730 := by
  refine ⟨⟨by decide, by decide⟩, by decide, by decide, by decide, by decide⟩

/-! ### Theorems for claims C5, C6, C8, C9, C10 -/

/-- Claim C5 (counterexample): the lot draw `random.randint(3, 8)` can
return 3, in which case `range(1, 3)` produces only 2 lots for that
medication — fewer than the claimed minimum of 3. -/
theorem two_lots_possible :
    lot_draw_possible 3 ∧ num_lots 3 = 2 ∧ num_lots 3 < 3 := by decide

/-- Claim C5 (amended): every catalog medication produces between 2 and 7
inventory lots (`range(1, randint(3, 8))` runs `k − 1 ∈ [2, 7]` times). -/
theorem num_lots_bounds (k : Nat) (h : lot_draw_possible k) :
    2 ≤ num_lots k ∧ num_lots k ≤ 7 := by
  unfold lot_draw_possible at h
  unfold num_lots
  omega

/-- Witness for `num_lots_bounds` at draw 8 (7 lots). -/
theorem num_lots_bounds_witness :
    lot_draw_possible 8 ∧ 2 ≤ num_lots 8 ∧ num_lots 8 ≤ 7 :=
  ⟨by decide, num_lots_bounds 8 (by decide)⟩

/-- Claim C6 (counterexample): with a catalog holding only Metformin
(Endocrine), Cardiology's class filter is empty and the selection yields
nothing — whereas the claimed fallback to the unfiltered catalog would have
selected Metformin, which sits at index 0 of the unfiltered catalog. -/
theorem med_filter_empty_no_fallback :
    med_options "CARD" [metformin] = [] ∧
      selected_med "CARD" [metformin] 0 = none ∧
      [metformin][0]? = some metformin := by
  refine ⟨by decide, by decide, by decide⟩

/-- Claim C6 (amended): with the shipped catalog every department's
candidate set is nonempty, so the empty-filter case never arises; and when
the filtered candidate set is empty the selection fails (no medication can
be chosen) — there is no fallback to the unfiltered catalog. -/
theorem med_options_nonempty_and_no_fallback :
    (∀ d ∈ departments, (med_options d.code medications).length > 0) ∧
      ∀ dept_id catalog idx, med_options dept_id catalog = [] →
        selected_med dept_id catalog idx = none := by
  constructor
  · decide
  · intro dept_id catalog idx h
    simp [selected_med, h]

/-- Witness for `med_options_nonempty_and_no_fallback`: Cardiology has
candidates in the shipped catalog, and the one-medication catalog that
empties Cardiology's filter makes selection fail. -/
theorem med_options_nonempty_and_no_fallback_witness :
    (med_options "CARD" medications).length > 0 ∧
      selected_med "CARD" [metformin] 0 = none :=
  ⟨med_options_nonempty_and_no_fallback.1 ⟨"CARD", 30⟩ (by decide),
   med_options_nonempty_and_no_fallback.2 "CARD" [metformin] 0 (by decide)⟩

/-- Claim C8: every booking's `total_charges` equals
`nightly_rate × total_nights`, and `nightly_rate` is the snapshot of the
booked bed's configured `daily_rate`. -/
theorem booking_total_charges (bid : Nat) (bed : Bed) (pid : Nat)
    (day nights : ℤ) :
    (mkBedBooking bid bed pid day nights).total_charges =
        (mkBedBooking bid bed pid day nights).nightly_rate *
          (mkBedBooking bid bed pid day nights).total_nights ∧
      (mkBedBooking bid bed pid day nights).nightly_rate = bed.daily_rate :=
  ⟨rfl, rfl⟩

/-- Claim C9: for every order and every state of the matching-inventory
guard, the number of dispensing events is at most
min(quantity_ordered, duration_days × 4, 9); in particular an order with
quantity 2 and duration 1 yields at most 2 events. -/
theorem dispensing_count_le (q d : Nat) (b : Bool) :
    dispensing_count q d b ≤ min (min q (d * 4)) 9 ∧
      dispensing_count 2 1 b ≤ 2 := by
  unfold dispensing_count dispensing_loop_iterations doses_to_dispense
  cases b
  · exact ⟨Nat.zero_le _, Nat.zero_le _⟩
  · exact ⟨by show min (min q (d * 4) + 1) 10 - 1 ≤ min (min q (d * 4)) 9; omega,
      by show min (min 2 (1 * 4) + 1) 10 - 1 ≤ 2; omega⟩

/-- Claim C10: every medication order's `order_date` equals the referenced
admission's `admission_date` (the strptime/strftime round trip of the
stored admission date). -/
theorem order_date_eq_admission_date (oid : Nat) (adm : Admission)
    (med : Medication) (q dur : Nat) :
    (mkMedicationOrder oid adm med q dur).order_date = adm.admission_date :=
  rfl

/-! ### Bed availability (`generate_bed_management_data`)

Beds are created per department with positive capacity, `capacity // 2`
rooms of two beds each, with sequential `BED…` counters; we model the
roster by its list of distinct bed counters.  Availability records are then
appended in a date-outer, bed-inner double loop over a one-year window
(2024-01-01 through 2024-12-31 inclusive), exactly one record per
(bed, date) iteration; a record is modelled by its (bed counter, day index)
key, where day index `i` stands for the date 2024-01-01 + `i` days. -/

/-- Beds contributed by one department:
`(bed_capacity // 2)` rooms × 2 beds, only when `bed_capacity > 0`. -/
def beds_in_department (bed_capacity : Nat) : Nat :=
  if bed_capacity > 0 then bed_capacity / 2 * 2 else 0

/-- Total roster size over all departments. -/
def total_beds : Nat :=
  (departments.map (fun d => beds_in_department d.bed_capacity)).sum

/-- The roster as the list of its (distinct, sequential) bed counters. -/
def bed_ids : List Nat := List.range total_beds

/-- Days in the availability window: the `while current_date <= end_date`
loop runs once per day from 2024-01-01 through 2024-12-31. -/
def num_days : Nat := (epochDay 2024 12 31 - epochDay 2024 1 1 + 1).toNat

/-- (bed, day-index) keys of the availability records, in generation order:
for each day of the window, one record per bed of the roster. -/
def bed_availability_keys (beds : List Nat) (days : Nat) : List (Nat × Nat) :=
  (List.range days).flatMap (fun d => beds.map (fun b => (b, d)))

/-- One day's slice of availability records holds key (b₀, d₀) once per
occurrence of b₀ in the roster if the day matches, else not at all. -/
theorem count_pair_map (beds : List Nat) (d b₀ d₀ : Nat) :
    (beds.map (fun b => (b, d))).count (b₀, d₀) =
      if d = d₀ then beds.count b₀ else 0 := by
  induction beds with
  | nil => simp
  | cons x xs ih =>
      rw [List.map_cons, List.count_cons, ih, List.count_cons]
      by_cases hd : d = d₀ <;> by_cases hb : x = b₀ <;>
        simp [hd, hb, Prod.ext_iff]

/-- Occurrences of a key among all availability records: the roster
multiplicity of the bed when the day lies in the window, zero otherwise. -/
theorem count_availability_keys (beds : List Nat) (days b₀ d₀ : Nat) :
    (bed_availability_keys beds days).count (b₀, d₀) =
      if d₀ < days then beds.count b₀ else 0 := by
  induction days with
  | zero => simp [bed_availability_keys]
  | succ n ih =>
      unfold bed_availability_keys at ih ⊢
      rw [List.range_succ, List.flatMap_append, List.count_append, ih,
        List.flatMap_cons, List.flatMap_nil, List.append_nil, count_pair_map]
      by_cases h1 : d₀ < n
      · have h2 : d₀ < n + 1 := by omega
        have h3 : ¬n = d₀ := by omega
        simp [h1, h2, h3]
      · by_cases h4 : n = d₀
        · subst h4
          simp [h1]
        · have h5 : ¬d₀ < n + 1 := by omega
          simp [h1, h4, h5]

/-- Claim C7: for every bed of the generated roster and every day of the
one-year window, exactly one availability record carries that (bed, date)
key — no duplicates and no gaps. -/
theorem bed_availability_exactly_once (b d : Nat)
    (hb : b ∈ bed_ids) (hd : d < num_days) :
    (bed_availability_keys bed_ids num_days).count (b, d) = 1 := by
  rw [count_availability_keys, if_pos hd]
  exact List.count_eq_one_of_mem (List.nodup_range _) hb

/-- Witness for `bed_availability_exactly_once` at the first bed and the
first day of the window. -/
theorem bed_availability_exactly_once_witness :
    (0 ∈ bed_ids ∧ 0 < num_days) ∧
      (bed_availability_keys bed_ids num_days).count (0, 0) = 1 :=
  ⟨⟨by decide, by decide⟩,
   bed_availability_exactly_once 0 0 (by decide) (by decide)⟩

end HospitalDemo
